import Mathlib

/-!
Verification of the BeetleBotJoystick control core against its specification.

The development shallowly embeds the relevant program parts:

* `JoystickMath.normalize` and `JoystickMath.detectCardinalDirection`
  (src/src/utils/joystickMath.ts), with JavaScript numbers modelled as real
  numbers, `Math.sqrt` as `Real.sqrt` and `Math.atan2 dy dx` as
  `Complex.arg ⟨dx, dy⟩` (both return the principal angle in (-π, π]).
* The control-screen joystick handlers (src/app/index.tsx), with the joystick
  sample components modelled over ℚ (the handlers only compare coordinates
  against rational thresholds, so the control flow is exact over ℚ).
* The Bluetooth Classic hook's connect / disconnect / send logic
  (src/src/hooks/useBluetoothClassic.ts) and the BLE hook's send logic
  (src/src/hooks/useBle.ts), with the transport's asynchronous outcomes
  passed in as explicit parameters and the observable actions (pairing,
  connect attempts, backoff sleeps, writes) collected in traces.
* The BluetoothService command queue (src/src/services/bluetoothService.ts).
-/

set_option autoImplicit false

/-! ### Definitions: joystick math (src/src/utils/joystickMath.ts) -/

/-- Raw pixel displacement pair, the raw dx/dy field of JoystickData
(src/src/types/index.ts). -/
structure RawDelta where
  dx : ℝ
  dy : ℝ

/-- Normalized joystick sample, the JoystickData interface of
src/src/types/index.ts. -/
structure JoystickData where
  x : ℝ
  y : ℝ
  angle : ℝ
  distance : ℝ
  raw : RawDelta

/-- The CardinalDirection type of src/src/utils/joystickMath.ts. -/
inductive CardinalDirection where
  | NORTH
  | SOUTH
  | EAST
  | WEST
  | CENTER
  deriving DecidableEq, Repr

namespace JoystickMath

/-- Model of `JoystickMath.normalize` (src/src/utils/joystickMath.ts lines
7-43): convert raw pixel movement to normalized joystick values with a
deadzone. The source's default argument `deadzone = 0.1` is passed explicitly
at call sites here. `Math.atan2 dy dx` is modelled by
`Complex.arg ⟨dx, dy⟩`. -/
noncomputable def normalize (dx dy maxDistance deadzone : ℝ) : JoystickData :=
  let rawDistance := Real.sqrt (dx * dx + dy * dy)
  if rawDistance < maxDistance * deadzone then
    { x := 0, y := 0, angle := 0, distance := 0, raw := { dx := 0, dy := 0 } }
  else
    let clampedDistance := min rawDistance maxDistance
    let angleRad := Complex.arg ⟨dx, dy⟩
    let angleDeg := angleRad * 180 / Real.pi
    let normalizedDistance := clampedDistance / maxDistance
    let normalizedX := (dx / maxDistance) * (clampedDistance / maxDistance)
    let normalizedY := -(dy / maxDistance) * (clampedDistance / maxDistance)
    { x := normalizedX, y := normalizedY, angle := angleDeg,
      distance := normalizedDistance, raw := { dx := dx, dy := dy } }

/-- Model of `JoystickMath.detectCardinalDirection`
(src/src/utils/joystickMath.ts lines 46-80): map a joystick sample to a 4-way
cardinal direction by angle quadrants. The source's default
`quadrantThreshold = 45` is passed explicitly at call sites here. -/
noncomputable def detectCardinalDirection
    (data : JoystickData) (quadrantThreshold : ℝ) : CardinalDirection :=
  if data.distance < 0.15 then
    CardinalDirection.CENTER
  else
    let angle := if data.angle < 0 then data.angle + 360 else data.angle
    if angle ≥ 360 - quadrantThreshold ∨ angle < quadrantThreshold then
      CardinalDirection.EAST
    else if angle ≥ quadrantThreshold ∧ angle < 90 + quadrantThreshold then
      CardinalDirection.SOUTH
    else if angle ≥ 90 + quadrantThreshold ∧ angle < 180 + quadrantThreshold then
      CardinalDirection.WEST
    else if angle ≥ 180 + quadrantThreshold ∧ angle < 270 + quadrantThreshold then
      CardinalDirection.NORTH
    else
      CardinalDirection.CENTER

end JoystickMath

/-- The exact zero sample that `normalize` returns inside the deadzone. -/
def zeroSample : JoystickData :=
  { x := 0, y := 0, angle := 0, distance := 0, raw := { dx := 0, dy := 0 } }

/-! ### Definitions: control screen dispatch (src/app/index.tsx)

`handleJoystickMove` reads only the x and y components of the sample and
compares them against rational thresholds (0.15 and 0.6), so its control flow
is modelled exactly over ℚ. The mutable refs `lastCommandRef` and
`speedSentRef` become an explicit state record; each handler returns the new
state together with the list of tokens passed to `sendCommand`, in order.
The speed-increment tokens scheduled through `setTimeout` are all eventually
sent, so they are listed in their scheduled order. -/

/-- The two refs of the control screen: `lastCommandRef` (last sent direction
token, or null) and `speedSentRef` (speed batch already sent for the current
edge). -/
structure CtrlState where
  lastCommand : Option String
  speedSent : Bool
  deriving DecidableEq, Repr

/-- The direction-command computation of `handleJoystickMove`
(src/app/index.tsx lines 83-116): deadzone 0.15, turn threshold 0.6;
turns take priority when the stick is strongly sideways, forward/backward
follow the selected gear, and backward stick pull is ignored. -/
def computeDirection (currentGear : String) (x y : ℚ) : String :=
  if |x| > 0.6 ∧ |x| > |y| then
    if x > 0 then "R" else "L"
  else if |y| > 0.15 then
    if y > 0 ∧ (currentGear = "1" ∨ currentGear = "2") then "F"
    else if y > 0 ∧ currentGear = "R" then "B"
    else "S"
  else "S"

/-- Number of speed-increment tokens dispatched per edge
(src/app/index.tsx lines 126-156): gear 2 sends 2 when turning and 4 when
straight, gear 1 sends 1 and 2; any other gear (gear R falls through both
branches) sends none. -/
def speedIncrementCount (currentGear : String) (isTurning : Bool) : Nat :=
  if currentGear = "2" then
    if isTurning then 2 else 4
  else if currentGear = "1" then
    if isTurning then 1 else 2
  else 0

/-- Model of `handleJoystickMove` (src/app/index.tsx lines 72-159),
restricted to its command-dispatch effects. Returns the updated refs and the
tokens sent. -/
def handleJoystickMove (connected : Bool) (currentGear : String)
    (st : CtrlState) (x y : ℚ) : CtrlState × List String :=
  if connected = false then (st, [])
  else
    let directionCommand := computeDirection currentGear x y
    let st1 : CtrlState :=
      if some directionCommand ≠ st.lastCommand then
        { lastCommand := some directionCommand, speedSent := false }
      else st
    let dirOut : List String :=
      if some directionCommand ≠ st.lastCommand then [directionCommand] else []
    if directionCommand ≠ "S" ∧ st1.speedSent = false then
      ({ lastCommand := st1.lastCommand, speedSent := true },
        dirOut ++ List.replicate
          (speedIncrementCount currentGear
            (decide (directionCommand = "L" ∨ directionCommand = "R"))) "+")
    else (st1, dirOut)

/-- Model of `handleJoystickStop` (src/app/index.tsx lines 164-175): always
resets the tracking refs; sends a single stop token only while connected. -/
def handleJoystickStop (connected : Bool) (_st : CtrlState) :
    CtrlState × List String :=
  ({ lastCommand := none, speedSent := false },
    if connected then ["S"] else [])

/-- Fold `handleJoystickMove` over a list of joystick samples, concatenating
the sent tokens. -/
def runMoves (connected : Bool) (currentGear : String) :
    CtrlState → List (ℚ × ℚ) → CtrlState × List String
  | st, [] => (st, [])
  | st, (x, y) :: rest =>
    let step := handleJoystickMove connected currentGear st x y
    let next := runMoves connected currentGear step.1 rest
    (next.1, step.2 ++ next.2)

/-- Number of changes in a token sequence, counting a first token that differs
from the initially last-sent one. -/
def countChanges (last : Option String) : List String → Nat
  | [] => 0
  | d :: ds => (if some d ≠ last then 1 else 0) + countChanges (some d) ds

/-- Direction tokens of the wire vocabulary (as opposed to speed-increment
tokens). -/
def isDirectionToken (s : String) : Bool :=
  decide (s = "F" ∨ s = "B" ∨ s = "L" ∨ s = "R" ∨ s = "S")

/-- Count the direction tokens in a sent-token list. -/
def countDirectionTokens (l : List String) : Nat :=
  (l.filter isDirectionToken).length

/-! ### Definitions: Bluetooth Classic hook (src/src/hooks/useBluetoothClassic.ts)

The transport's asynchronous results are passed in as explicit parameters
(`connect()` can resolve true, resolve false, or reject; same for pairing,
writes and closes), and each modelled function returns the observable actions
it performed alongside its state effect. -/

/-- Outcome of one `deviceToConnect.connect()` call: resolve `true`, resolve
`false`, or reject with an error. -/
inductive AttemptOutcome where
  | ok
  | retFalse
  | threw (msg : String)
  deriving DecidableEq, Repr

/-- Outcome of the `RNBluetoothClassic.pairDevice` call: resolve with a
boolean or reject with an error. -/
inductive PairOutcome where
  | resolved (paired : Bool)
  | threw (msg : String)
  deriving DecidableEq, Repr

/-- Observable actions of the connect flow, in order. -/
inductive ConnectEv where
  | pairAttempt
  | pairStabilizeWait
  | att (n : Nat)
  | backoff
  deriving DecidableEq, Repr

/-- The retry loop of `connectToDevice` (src/src/hooks/useBluetoothClassic.ts
lines 167-206): `for (attempt = 1; attempt <= 3; attempt++)`, breaking when
`connect()` resolves true; a rejection is recorded in `lastError` and, when
`attempt < 3`, followed by the fixed 1-second delay (`backoff`); a `false`
resolution just moves on to the next attempt. `fuel` counts the remaining
loop iterations; the flow starts it at 3. Returns (events, lastError,
connected). -/
def connectLoop (outcome : Nat → AttemptOutcome) :
    Nat → Nat → Option String → List ConnectEv × Option String × Bool
  | 0, _, lastError => ([], lastError, false)
  | fuel + 1, attempt, lastError =>
    match outcome attempt with
    | .ok => ([ConnectEv.att attempt], lastError, true)
    | .retFalse =>
      let rest := connectLoop outcome fuel (attempt + 1) lastError
      (ConnectEv.att attempt :: rest.1, rest.2)
    | .threw msg =>
      if attempt < 3 then
        let rest := connectLoop outcome fuel (attempt + 1) (some msg)
        (ConnectEv.att attempt :: ConnectEv.backoff :: rest.1, rest.2)
      else
        ([ConnectEv.att attempt], some msg, false)

/-- Result of a modelled connect flow: the action trace and the outcome of
the try-block (an error reaches the outer catch, which clears the refs and
only logs it). -/
structure ConnectResult where
  events : List ConnectEv
  outcome : Except String Unit
  deriving Repr

/-- Model of `connectToDevice` (src/src/hooks/useBluetoothClassic.ts lines
121-223): when the device is not bonded, pairing is attempted once, and any
pairing failure (resolved `false` or thrown) is swallowed — the flow proceeds
to the retry loop regardless; a successful pairing additionally waits 3
seconds. Then up to 3 connect attempts run; if none succeeds, the recorded
last error (or the generic failure message when no attempt threw) is
thrown. -/
def connectToDevice (bonded : Bool) (pairResult : PairOutcome)
    (outcome : Nat → AttemptOutcome) : ConnectResult :=
  let pairEvents :=
    if bonded then []
    else
      match pairResult with
      | .resolved true => [ConnectEv.pairAttempt, ConnectEv.pairStabilizeWait]
      | .resolved false => [ConnectEv.pairAttempt]
      | .threw _ => [ConnectEv.pairAttempt]
  let loop := connectLoop outcome 3 1 none
  { events := pairEvents ++ loop.1,
    outcome :=
      if loop.2.2 then Except.ok ()
      else
        Except.error
          (loop.2.1.getD "Failed to connect to device after 3 attempts") }

/-- Recognize connect-attempt events. -/
def isAttemptEv : ConnectEv → Bool
  | ConnectEv.att _ => true
  | _ => false

/-- Recognize pairing-attempt events. -/
def isPairEv : ConnectEv → Bool
  | ConnectEv.pairAttempt => true
  | _ => false

/-- Number of connect attempts in a trace. -/
def countAttempts (evs : List ConnectEv) : Nat :=
  (evs.filter isAttemptEv).length

/-- Number of pairing attempts in a trace. -/
def countPairAttempts (evs : List ConnectEv) : Nat :=
  (evs.filter isPairEv).length

/-- Specification-side trace, written from the amended claim's delay clauses
rather than from the source, to be compared with `connectLoop`: starting at
attempt n with the given budget of remaining attempts (3 for a fresh flow),
attempts run in order until the first `true` resolution; an attempt that
fails by rejecting — except the third — is followed by exactly one fixed
backoff delay before the next attempt; an attempt that resolves `false` is
followed by the next attempt immediately, with no delay. -/
def claimedEvents (outcome : Nat → AttemptOutcome) :
    Nat → Nat → List ConnectEv
  | 0, _ => []
  | fuel + 1, n =>
    match outcome n with
    | .ok => [ConnectEv.att n]
    | .retFalse => ConnectEv.att n :: claimedEvents outcome fuel (n + 1)
    | .threw _ =>
      if n < 3 then
        ConnectEv.att n :: ConnectEv.backoff :: claimedEvents outcome fuel (n + 1)
      else
        [ConnectEv.att n]

/-- Abstract Bluetooth device reference (the hooks' `deviceRef.current`). -/
structure BTDevice where
  address : String
  deriving DecidableEq, Repr

/-- Outcome of a `device.write` call: resolve `true`, resolve `false`, or
reject with an error message. -/
inductive WriteOutcome where
  | ok
  | retFalse
  | threw (msg : String)
  deriving DecidableEq, Repr

/-- Prefix check over character lists, used to model JavaScript
`String.includes`. -/
def matchesAt : List Char → List Char → Bool
  | [], _ => true
  | _ :: _, [] => false
  | p :: ps, c :: cs => p = c && matchesAt ps cs

/-- Substring occurrence over character lists. -/
def containsSeq (pat : List Char) : List Char → Bool
  | [] => pat.isEmpty
  | c :: cs => matchesAt pat (c :: cs) || containsSeq pat cs

/-- The Classic hook's fatal-write classifier, JavaScript
`error.message.includes("disconnect")`
(src/src/hooks/useBluetoothClassic.ts line 263). -/
def indicatesDisconnect (msg : String) : Bool :=
  containsSeq "disconnect".toList msg.toList

/-- Model of `sendCommand` (src/src/hooks/useBluetoothClassic.ts lines
239-269): with no stored device the command is dropped with only a warning;
otherwise the command is written exactly once (a `false` result is only
logged); when the write rejects and the message indicates a disconnect, the
stored device reference is cleared. Returns the new reference and the
commands written. -/
def sendCommand (deviceRef : Option BTDevice)
    (write : BTDevice → String → WriteOutcome) (command : String) :
    Option BTDevice × List String :=
  match deviceRef with
  | none => (none, [])
  | some device =>
    match write device command with
    | .ok => (some device, [command])
    | .retFalse => (some device, [command])
    | .threw msg =>
      if indicatesDisconnect msg then (none, [command])
      else (some device, [command])

/-- The BLE hook's fatal-write classifier, JavaScript
`error.message.includes("disconnected")` (src/src/hooks/useBle.ts line
233). -/
def indicatesDisconnected (msg : String) : Bool :=
  containsSeq "disconnected".toList msg.toList

/-- Model of the BLE hook's `sendCommand` (src/src/hooks/useBle.ts lines
188-239): with no stored device the command is dropped with only a warning;
otherwise a write with response is tried, falling back to a single write
without response inside the same send when it rejects; when the fallback also
rejects and the message indicates a disconnect, the stored device reference
is cleared. A write outcome of `none` is success, `some msg` is a rejection.
Returns the new reference and the write calls performed. -/
def sendCommandBle (deviceRef : Option BTDevice)
    (writeWithResponse writeWithoutResponse : BTDevice → String → Option String)
    (command : String) : Option BTDevice × List String :=
  match deviceRef with
  | none => (none, [])
  | some device =>
    match writeWithResponse device command with
    | none => (some device, [command])
    | some _ =>
      match writeWithoutResponse device command with
      | none => (some device, [command, command])
      | some msg =>
        if indicatesDisconnected msg then (none, [command, command])
        else (some device, [command, command])

/-- Outcome of a `device.disconnect()` (close) call. -/
inductive CloseOutcome where
  | ok
  | threw (msg : String)
  deriving DecidableEq, Repr

/-- Result of a modelled `disconnectDevice` call: the new stored reference,
the close calls performed, and whether an error escaped to the caller. -/
structure DisconnectResult where
  deviceRef : Option BTDevice
  closeCalls : List BTDevice
  errorEscalated : Bool
  deriving DecidableEq, Repr

/-- Model of `disconnectDevice` (src/src/hooks/useBluetoothClassic.ts lines
225-237, structurally identical in src/src/hooks/useBle.ts lines 172-186):
does nothing when no device is stored; otherwise calls `disconnect()` once
and clears the reference only on its success — a thrown close error is caught
and logged, leaving the reference in place. -/
def disconnectDevice (deviceRef : Option BTDevice)
    (close : BTDevice → CloseOutcome) : DisconnectResult :=
  match deviceRef with
  | none => { deviceRef := none, closeCalls := [], errorEscalated := false }
  | some device =>
    match close device with
    | .ok =>
      { deviceRef := none, closeCalls := [device], errorEscalated := false }
    | .threw _ =>
      { deviceRef := some device, closeCalls := [device],
        errorEscalated := false }

/-! ### Definitions: BluetoothService command queue
(src/src/services/bluetoothService.ts) -/

/-- The MotorCommand interface of src/src/types/index.ts. -/
structure MotorCommand where
  type : String
  leftSpeed : ℚ
  rightSpeed : ℚ
  gear : String
  clawOpen : Bool
  timestamp : Nat
  deriving DecidableEq, Repr

/-- Model of `BluetoothService.sendMotorCommand`
(src/src/services/bluetoothService.ts lines 148-168): ignored when not
connected; otherwise clamps both speeds to [-100, 100] and pushes the command
onto the end of `commandQueue`. -/
def sendMotorCommand (isConnected : Bool) (commandQueue : List MotorCommand)
    (leftSpeed rightSpeed : ℚ) (gear : String) (timestamp : Nat) :
    List MotorCommand :=
  if isConnected = false then commandQueue
  else
    let command : MotorCommand :=
      { type := "joystick",
        leftSpeed := max (-100) (min 100 leftSpeed),
        rightSpeed := max (-100) (min 100 rightSpeed),
        gear := gear, clawOpen := false, timestamp := timestamp }
    commandQueue ++ [command]

/-- One tick of `startCommandQueue`'s interval
(src/src/services/bluetoothService.ts lines 252-259): if the queue is
non-empty, shift off the head and process it. Returns the remaining queue and
the command processed this tick, if any. -/
def queueTick (commandQueue : List MotorCommand) :
    List MotorCommand × Option MotorCommand :=
  match commandQueue with
  | [] => ([], none)
  | c :: rest => (rest, some c)

/-- Enqueue n motor commands with distinct timestamps onto an empty queue. -/
def pushMany (n : Nat) : List MotorCommand :=
  (List.range n).foldl (fun q i => sendMotorCommand true q 0 0 "1" i) []

/-! ### Claims about the joystick math -/

/-- Claim C3: for every raw input (dx, dy) with √(dx²+dy²) < maxRadius ×
deadzoneFraction, `normalize` returns the exact zero sample (x = y = angle =
magnitude = 0, with zeroed raw components) — a hard cutoff. -/
theorem c3_deadzone_zero_sample (dx dy maxDistance deadzone : ℝ)
    (h : Real.sqrt (dx * dx + dy * dy) < maxDistance * deadzone) :
    JoystickMath.normalize dx dy maxDistance deadzone = zeroSample := by
  unfold JoystickMath.normalize zeroSample
  rw [if_pos h]

/-- Witness for C3 at the concrete input dx = 0, dy = 0, maxDistance = 100,
deadzone = 0.1. -/
theorem c3_deadzone_zero_sample_witness :
    JoystickMath.normalize 0 0 100 0.1 = zeroSample := by
  apply c3_deadzone_zero_sample
  rw [show (0 : ℝ) * 0 + 0 * 0 = 0 by ring, Real.sqrt_zero]
  norm_num

/-- Counterexample to claim C8: at the raw input dx = 200, dy = 0 with
maxDistance = 100 and deadzone = 0.1, the returned x component is 2, outside
[-1, 1] — `normalize` clamps the distance but not the axis components. -/
theorem c8_counterexample :
    (JoystickMath.normalize 200 0 100 0.1).x = 2 ∧
    ¬ (-1 ≤ (JoystickMath.normalize 200 0 100 0.1).x ∧
        (JoystickMath.normalize 200 0 100 0.1).x ≤ 1) := by
  have hs : Real.sqrt ((200 : ℝ) * 200 + 0 * 0) = 200 := by
    rw [show (200 : ℝ) * 200 + 0 * 0 = 200 ^ 2 by ring]
    exact Real.sqrt_sq (by norm_num)
  have hx : (JoystickMath.normalize 200 0 100 0.1).x = 2 := by
    unfold JoystickMath.normalize
    rw [hs, if_neg (by norm_num)]
    rw [show min (200 : ℝ) 100 = 100 from min_eq_right (by norm_num)]
    norm_num
  exact ⟨hx, by rw [hx]; norm_num⟩

/-- Claim C8, amended: every sample has magnitude (the `distance` field) in
[0, 1] and magnitude exactly 1 for raw distance ≥ maxRadius (for a positive
maxRadius and a deadzone fraction ≤ 1); the x and y components lie in [-1, 1]
only under the additional assumption that |dx| and |dy| are themselves
bounded by maxRadius (the on-screen widget guarantees this; `normalize` alone
does not clamp them, see the counterexample). -/
theorem c8_sample_bounds :
    (∀ dx dy maxDistance deadzone : ℝ, 0 < maxDistance →
      0 ≤ (JoystickMath.normalize dx dy maxDistance deadzone).distance ∧
      (JoystickMath.normalize dx dy maxDistance deadzone).distance ≤ 1) ∧
    (∀ dx dy maxDistance deadzone : ℝ, 0 < maxDistance → deadzone ≤ 1 →
      maxDistance ≤ Real.sqrt (dx * dx + dy * dy) →
      (JoystickMath.normalize dx dy maxDistance deadzone).distance = 1) ∧
    (∀ dx dy maxDistance deadzone : ℝ, 0 < maxDistance →
      |dx| ≤ maxDistance → |dy| ≤ maxDistance →
      |(JoystickMath.normalize dx dy maxDistance deadzone).x| ≤ 1 ∧
      |(JoystickMath.normalize dx dy maxDistance deadzone).y| ≤ 1) := by
  refine ⟨?_, ?_, ?_⟩
  · intro dx dy maxDistance deadzone hpos
    unfold JoystickMath.normalize
    dsimp only
    split_ifs with hguard
    · norm_num
    · dsimp only
      constructor
      · exact div_nonneg (le_min (Real.sqrt_nonneg _) hpos.le) hpos.le
      · rw [div_le_one hpos]
        exact min_le_right _ _
  · intro dx dy maxDistance deadzone hpos hdz hfar
    unfold JoystickMath.normalize
    rw [if_neg (by
      rw [not_lt]
      calc maxDistance * deadzone ≤ maxDistance * 1 := by
            exact mul_le_mul_of_nonneg_left hdz hpos.le
        _ = maxDistance := mul_one _
        _ ≤ Real.sqrt (dx * dx + dy * dy) := hfar)]
    dsimp only
    rw [min_eq_right hfar, div_self hpos.ne']
  · intro dx dy maxDistance deadzone hpos hdx hdy
    unfold JoystickMath.normalize
    dsimp only
    split_ifs with hguard
    · norm_num
    · dsimp only
      have hm0 : 0 ≤ min (Real.sqrt (dx * dx + dy * dy)) maxDistance :=
        le_min (Real.sqrt_nonneg _) hpos.le
      have hm1 : min (Real.sqrt (dx * dx + dy * dy)) maxDistance ≤ maxDistance :=
        min_le_right _ _
      have hq : |min (Real.sqrt (dx * dx + dy * dy)) maxDistance / maxDistance| ≤ 1 := by
        rw [abs_div, abs_of_nonneg hm0, abs_of_pos hpos, div_le_one hpos]
        exact hm1
      have hq0 : 0 ≤ |min (Real.sqrt (dx * dx + dy * dy)) maxDistance / maxDistance| :=
        abs_nonneg _
      constructor
      · rw [abs_mul, abs_div, abs_of_pos hpos]
        exact mul_le_one₀ ((div_le_one hpos).mpr hdx) hq0 hq
      · rw [abs_mul, abs_neg, abs_div, abs_of_pos hpos]
        exact mul_le_one₀ ((div_le_one hpos).mpr hdy) hq0 hq

/-- Witness for C8 (amended) at dx = 3, dy = 4, maxDistance = 5,
deadzone = 0.1: magnitude bounds, exact clamping to 1, and axis bounds. -/
theorem c8_sample_bounds_witness :
    (0 < (5 : ℝ) ∧
      0 ≤ (JoystickMath.normalize 3 4 5 0.1).distance ∧
      (JoystickMath.normalize 3 4 5 0.1).distance ≤ 1) ∧
    ((0.1 : ℝ) ≤ 1 ∧ (5 : ℝ) ≤ Real.sqrt (3 * 3 + 4 * 4) ∧
      (JoystickMath.normalize 3 4 5 0.1).distance = 1) ∧
    (|(3 : ℝ)| ≤ 5 ∧ |(4 : ℝ)| ≤ 5 ∧
      |(JoystickMath.normalize 3 4 5 0.1).x| ≤ 1 ∧
      |(JoystickMath.normalize 3 4 5 0.1).y| ≤ 1) := by
  have h5 : (0 : ℝ) < 5 := by norm_num
  have hfar : (5 : ℝ) ≤ Real.sqrt (3 * 3 + 4 * 4) := by
    rw [show (3 : ℝ) * 3 + 4 * 4 = 5 ^ 2 by norm_num, Real.sqrt_sq (by norm_num)]
  refine ⟨⟨h5, c8_sample_bounds.1 3 4 5 0.1 h5⟩,
    ⟨by norm_num, hfar, c8_sample_bounds.2.1 3 4 5 0.1 h5 (by norm_num) hfar⟩,
    ⟨by norm_num, by norm_num,
      c8_sample_bounds.2.2 3 4 5 0.1 h5 (by norm_num) (by norm_num)⟩⟩

/-- Claim C9: under the quadrant policy with 45° half-width, (dx = 0,
dy = -maxRadius) classifies as NORTH (screen-up maps to forward) and
(dx = maxRadius, dy = 0) classifies as EAST (right turn). The deadzone is the
source default 0.1. -/
theorem c9_cardinal_scenario (maxR : ℝ) (h : 0 < maxR) :
    JoystickMath.detectCardinalDirection
      (JoystickMath.normalize 0 (-maxR) maxR 0.1) 45 = CardinalDirection.NORTH ∧
    JoystickMath.detectCardinalDirection
      (JoystickMath.normalize maxR 0 maxR 0.1) 45 = CardinalDirection.EAST := by
  have hguard : ¬ maxR < maxR * 0.1 := by
    rw [not_lt]
    nlinarith
  constructor
  · have hr : Real.sqrt (0 * 0 + -maxR * -maxR) = maxR := by
      rw [show (0 : ℝ) * 0 + -maxR * -maxR = maxR ^ 2 by ring]
      exact Real.sqrt_sq h.le
    have harg : Complex.arg ⟨0, -maxR⟩ = -(Real.pi / 2) := by
      have hz : (⟨0, -maxR⟩ : ℂ) = (maxR : ℝ) * (-Complex.I) := by
        apply Complex.ext <;> simp
      rw [hz, Complex.arg_real_mul _ h, Complex.arg_neg_I]
    have hD : (JoystickMath.normalize 0 (-maxR) maxR 0.1).distance = 1 := by
      unfold JoystickMath.normalize
      rw [hr, if_neg hguard]
      dsimp only
      rw [min_self]
      exact div_self h.ne'
    have hA : (JoystickMath.normalize 0 (-maxR) maxR 0.1).angle = -90 := by
      unfold JoystickMath.normalize
      rw [hr, if_neg hguard]
      dsimp only
      rw [harg, div_eq_iff Real.pi_ne_zero]
      ring
    unfold JoystickMath.detectCardinalDirection
    rw [hD, hA]
    norm_num
  · have hr : Real.sqrt (maxR * maxR + 0 * 0) = maxR := by
      rw [show maxR * maxR + (0 : ℝ) * 0 = maxR ^ 2 by ring]
      exact Real.sqrt_sq h.le
    have harg : Complex.arg ⟨maxR, 0⟩ = 0 := by
      have hz : (⟨maxR, 0⟩ : ℂ) = ((maxR : ℝ) : ℂ) := by
        apply Complex.ext <;> simp
      rw [hz, Complex.arg_ofReal_of_nonneg h.le]
    have hD : (JoystickMath.normalize maxR 0 maxR 0.1).distance = 1 := by
      unfold JoystickMath.normalize
      rw [hr, if_neg hguard]
      dsimp only
      rw [min_self]
      exact div_self h.ne'
    have hA : (JoystickMath.normalize maxR 0 maxR 0.1).angle = 0 := by
      unfold JoystickMath.normalize
      rw [hr, if_neg hguard]
      dsimp only
      rw [harg, zero_mul, zero_div]
    unfold JoystickMath.detectCardinalDirection
    rw [hD, hA]
    norm_num

/-- Witness for C9 at maxRadius = 1. -/
theorem c9_cardinal_scenario_witness :
    (0 : ℝ) < 1 ∧
    (JoystickMath.detectCardinalDirection
        (JoystickMath.normalize 0 (-1) 1 0.1) 45 = CardinalDirection.NORTH ∧
      JoystickMath.detectCardinalDirection
        (JoystickMath.normalize 1 0 1 0.1) 45 = CardinalDirection.EAST) :=
  ⟨by norm_num, c9_cardinal_scenario 1 (by norm_num)⟩

/-- Claim C10: for every joystick sample with distance ≥ 0.15 and the default
quadrant half-width of 45°, `detectCardinalDirection` returns one of the four
cardinal directions — the trailing CENTER fallthrough branch is
unreachable. -/
theorem c10_center_fallthrough_unreachable (data : JoystickData)
    (h : 0.15 ≤ data.distance) :
    JoystickMath.detectCardinalDirection data 45 = CardinalDirection.EAST ∨
    JoystickMath.detectCardinalDirection data 45 = CardinalDirection.SOUTH ∨
    JoystickMath.detectCardinalDirection data 45 = CardinalDirection.WEST ∨
    JoystickMath.detectCardinalDirection data 45 = CardinalDirection.NORTH := by
  unfold JoystickMath.detectCardinalDirection
  rw [if_neg (not_lt.mpr h)]
  dsimp only
  set a := (if data.angle < 0 then data.angle + 360 else data.angle) with ha
  split_ifs with h1 h2 h3 h4
  · exact Or.inl rfl
  · exact Or.inr (Or.inl rfl)
  · exact Or.inr (Or.inr (Or.inl rfl))
  · exact Or.inr (Or.inr (Or.inr rfl))
  · exfalso
    rcases not_or.mp h1 with ⟨hA, hB⟩
    have h45 : (45 : ℝ) ≤ a := not_lt.mp hB
    have h135 : (90 : ℝ) + 45 ≤ a := by
      by_contra hc
      exact h2 ⟨h45, not_le.mp hc⟩
    have h225 : (180 : ℝ) + 45 ≤ a := by
      by_contra hc
      exact h3 ⟨h135, not_le.mp hc⟩
    have h315 : (270 : ℝ) + 45 ≤ a := by
      by_contra hc
      exact h4 ⟨h225, not_le.mp hc⟩
    exact hA (by linarith)

/-- Witness for C10 at the concrete sample with angle 0 and distance 1. -/
theorem c10_center_fallthrough_unreachable_witness :
    (0.15 : ℝ) ≤ (1 : ℝ) ∧
    (JoystickMath.detectCardinalDirection
        { x := 0, y := 0, angle := 0, distance := 1,
          raw := { dx := 0, dy := 0 } } 45 = CardinalDirection.EAST ∨
      JoystickMath.detectCardinalDirection
        { x := 0, y := 0, angle := 0, distance := 1,
          raw := { dx := 0, dy := 0 } } 45 = CardinalDirection.SOUTH ∨
      JoystickMath.detectCardinalDirection
        { x := 0, y := 0, angle := 0, distance := 1,
          raw := { dx := 0, dy := 0 } } 45 = CardinalDirection.WEST ∨
      JoystickMath.detectCardinalDirection
        { x := 0, y := 0, angle := 0, distance := 1,
          raw := { dx := 0, dy := 0 } } 45 = CardinalDirection.NORTH) :=
  ⟨by norm_num, c10_center_fallthrough_unreachable _ (by norm_num)⟩

/-! ### Claims about the control screen dispatch -/

theorem computeDirection_isDirectionToken (g : String) (x y : ℚ) :
    isDirectionToken (computeDirection g x y) = true := by
  unfold computeDirection
  split_ifs <;> rfl

theorem isDirectionToken_stop : isDirectionToken "S" = true := rfl

theorem isDirectionToken_plus : isDirectionToken "+" = false := rfl

theorem filter_isDirectionToken_replicate (k : Nat) :
    List.filter isDirectionToken (List.replicate k "+") = [] := by
  induction k with
  | zero => rfl
  | succ n ih =>
    rw [List.replicate_succ, List.filter_cons, isDirectionToken_plus]
    exact ih

/-- Per-sample direction-token count: exactly one direction token is sent when
the computed direction differs from the last sent one, else none. -/
theorem handleJoystickMove_dirCount (g : String) (st : CtrlState) (x y : ℚ) :
    countDirectionTokens (handleJoystickMove true g st x y).2 =
      if some (computeDirection g x y) ≠ st.lastCommand then 1 else 0 := by
  unfold handleJoystickMove
  dsimp only
  split_ifs with hchg hspd <;>
    simp_all [countDirectionTokens, List.filter_append,
      filter_isDirectionToken_replicate, List.filter_cons,
      computeDirection_isDirectionToken, isDirectionToken_stop]

/-- After any connected move event the last-command ref holds the direction
just computed. -/
theorem handleJoystickMove_lastCommand (g : String) (st : CtrlState)
    (x y : ℚ) :
    ((handleJoystickMove true g st x y).1).lastCommand =
      some (computeDirection g x y) := by
  unfold handleJoystickMove
  dsimp only
  split_ifs <;> simp_all

/-- Claim C2: for any sequence of joystick move events while connected, the
count of direction tokens sent equals the count of changes in the computed
direction (edge-triggering), and for the scenario Forward, Forward, Stop
exactly one F token and one S token are sent. -/
theorem c2_edge_triggering :
    (∀ (g : String) (samples : List (ℚ × ℚ)) (st : CtrlState),
      countDirectionTokens (runMoves true g st samples).2 =
        countChanges st.lastCommand
          (samples.map fun p => computeDirection g p.1 p.2)) ∧
    ((runMoves true "1" ⟨none, false⟩ [(0, 1), (0, 1)]).2 ++
        (handleJoystickStop true
          (runMoves true "1" ⟨none, false⟩ [(0, 1), (0, 1)]).1).2).count "F" = 1 ∧
    ((runMoves true "1" ⟨none, false⟩ [(0, 1), (0, 1)]).2 ++
        (handleJoystickStop true
          (runMoves true "1" ⟨none, false⟩ [(0, 1), (0, 1)]).1).2).count "S" = 1 := by
  have hF : computeDirection "1" 0 1 = "F" := by
    unfold computeDirection
    norm_num
  refine ⟨fun g samples => ?_,
    by simp [runMoves, handleJoystickMove, hF, speedIncrementCount,
      handleJoystickStop],
    by simp [runMoves, handleJoystickMove, hF, speedIncrementCount,
      handleJoystickStop]⟩
  induction samples with
  | nil => intro st; rfl
  | cons p rest ih =>
    intro st
    obtain ⟨x, y⟩ := p
    show countDirectionTokens
        ((handleJoystickMove true g st x y).2 ++
          (runMoves true g (handleJoystickMove true g st x y).1 rest).2) = _
    rw [show ∀ l1 l2 : List String,
          countDirectionTokens (l1 ++ l2) =
            countDirectionTokens l1 + countDirectionTokens l2 from
        fun l1 l2 => by simp [countDirectionTokens, List.filter_append]]
    rw [handleJoystickMove_dirCount, ih, List.map_cons, countChanges,
      handleJoystickMove_lastCommand]

/-- Counterexample to claim C4: in gear R a direction change to the non-Stop
direction B (straight) or R (turn) sends a direction token and zero
speed-increment tokens, so turns do not get strictly fewer increments than
straight moves in that gear. -/
theorem c4_counterexample :
    (handleJoystickMove true "R" ⟨none, false⟩ 0 1).2 = ["B"] ∧
    (handleJoystickMove true "R" ⟨none, false⟩ 1 0).2 = ["R"] ∧
    ¬ speedIncrementCount "R" true < speedIncrementCount "R" false := by
  have hB : computeDirection "R" 0 1 = "B" := by
    unfold computeDirection
    norm_num
    decide
  have hR : computeDirection "R" 1 0 = "R" := by
    unfold computeDirection
    norm_num
  exact ⟨by simp [handleJoystickMove, hB, speedIncrementCount],
    by simp [handleJoystickMove, hR, speedIncrementCount], by decide⟩

/-- Claim C4, amended: on every direction change to a non-Stop direction while
connected exactly one batch of speed-increment tokens is sent right after the
direction token, its size a fixed function of (gear, turn-vs-straight); a
repeated direction with the batch already sent produces nothing. The table is
1/2 for gear 1, 2/4 for gear 2 (turn/straight, strictly fewer for turns and
strictly more in the higher gear), while gear R sends zero increments for both
move kinds (so the strict turn-vs-straight inequality fails there, see the
counterexample), and gear R < gear 1 < gear 2 holds for each move kind. -/
theorem c4_speed_increment_batch :
    (∀ (g : String) (st : CtrlState) (x y : ℚ) (dir : String),
      dir = computeDirection g x y → some dir ≠ st.lastCommand → dir ≠ "S" →
      (handleJoystickMove true g st x y).2 =
        dir :: List.replicate
          (speedIncrementCount g (decide (dir = "L" ∨ dir = "R"))) "+") ∧
    (∀ (g : String) (st : CtrlState) (x y : ℚ),
      some (computeDirection g x y) = st.lastCommand → st.speedSent = true →
      (handleJoystickMove true g st x y).2 = []) ∧
    (speedIncrementCount "1" true = 1 ∧ speedIncrementCount "1" false = 2 ∧
      speedIncrementCount "2" true = 2 ∧ speedIncrementCount "2" false = 4 ∧
      speedIncrementCount "R" true = 0 ∧ speedIncrementCount "R" false = 0) ∧
    (speedIncrementCount "1" true < speedIncrementCount "1" false ∧
      speedIncrementCount "2" true < speedIncrementCount "2" false ∧
      ∀ t : Bool, speedIncrementCount "R" t < speedIncrementCount "1" t ∧
        speedIncrementCount "1" t < speedIncrementCount "2" t) := by
  refine ⟨?_, ?_, by decide, by decide⟩
  · intro g st x y dir hdir hchg hS
    subst hdir
    unfold handleJoystickMove
    simp only [Bool.true_eq_false, if_false]
    rw [if_pos hchg, if_pos ⟨hS, rfl⟩, if_pos hchg]
    simp
  · intro g st x y hchg hsent
    unfold handleJoystickMove
    simp only [Bool.true_eq_false, if_false]
    rw [if_neg (not_not_intro hchg), if_neg (not_not_intro hchg)]
    rw [if_neg fun hc => by
      rw [hsent] at hc
      exact Bool.noConfusion hc.2]

/-- Witness for C4 (amended): gear 2, fresh state, sample (0, 1) computes
direction F (a change to non-Stop) and sends F followed by 4 increments;
gear 1 with the same direction already latched and the batch sent produces
nothing. -/
theorem c4_speed_increment_batch_witness :
    ("F" = computeDirection "2" 0 1 ∧
      some "F" ≠ (⟨none, false⟩ : CtrlState).lastCommand ∧ "F" ≠ "S" ∧
      (handleJoystickMove true "2" ⟨none, false⟩ 0 1).2 =
        "F" :: List.replicate
          (speedIncrementCount "2" (decide ("F" = "L" ∨ "F" = "R"))) "+") ∧
    (some (computeDirection "1" 0 1) = (⟨some "F", true⟩ : CtrlState).lastCommand ∧
      (⟨some "F", true⟩ : CtrlState).speedSent = true ∧
      (handleJoystickMove true "1" ⟨some "F", true⟩ 0 1).2 = []) := by
  have hF2 : computeDirection "2" 0 1 = "F" := by
    unfold computeDirection
    norm_num
  have hF1 : computeDirection "1" 0 1 = "F" := by
    unfold computeDirection
    norm_num
  exact ⟨⟨hF2.symm, by decide, by decide,
      c4_speed_increment_batch.1 "2" ⟨none, false⟩ 0 1 "F" hF2.symm (by decide)
        (by decide)⟩,
    ⟨by rw [hF1], rfl,
      c4_speed_increment_batch.2.1 "1" ⟨some "F", true⟩ 0 1 (by rw [hF1]) rfl⟩⟩

/-! ### Claims about the connection lifecycle -/

theorem connectLoop_succ (outcome : Nat → AttemptOutcome) (fuel attempt : Nat)
    (lastError : Option String) :
    connectLoop outcome (fuel + 1) attempt lastError =
      match outcome attempt with
      | .ok => ([ConnectEv.att attempt], lastError, true)
      | .retFalse =>
        let rest := connectLoop outcome fuel (attempt + 1) lastError
        (ConnectEv.att attempt :: rest.1, rest.2)
      | .threw msg =>
        if attempt < 3 then
          let rest := connectLoop outcome fuel (attempt + 1) (some msg)
          (ConnectEv.att attempt :: ConnectEv.backoff :: rest.1, rest.2)
        else
          ([ConnectEv.att attempt], some msg, false) := rfl

theorem countAttempts_append (l1 l2 : List ConnectEv) :
    countAttempts (l1 ++ l2) = countAttempts l1 + countAttempts l2 := by
  simp [countAttempts, List.filter_append]

theorem connectLoop_attempts_le (outcome : Nat → AttemptOutcome) :
    ∀ (fuel attempt : Nat) (lastError : Option String),
      countAttempts (connectLoop outcome fuel attempt lastError).1 ≤ fuel := by
  intro fuel
  induction fuel with
  | zero =>
    intro attempt lastError
    simp [connectLoop, countAttempts]
  | succ n ih =>
    intro attempt lastError
    rw [connectLoop_succ]
    cases houtcome : outcome attempt with
    | ok =>
      simp [countAttempts, List.filter_cons, isAttemptEv]
    | retFalse =>
      have := ih (attempt + 1) lastError
      simp only [countAttempts, List.filter_cons] at this ⊢
      simp [isAttemptEv]
      omega
    | threw msg =>
      split_ifs
      · have := ih (attempt + 1) (some msg)
        simp only [countAttempts, List.filter_cons] at this ⊢
        simp [isAttemptEv]
        omega
      · simp [countAttempts, List.filter_cons, isAttemptEv]

theorem connectLoop_no_pairAttempt (outcome : Nat → AttemptOutcome) :
    ∀ (fuel attempt : Nat) (lastError : Option String),
      countPairAttempts (connectLoop outcome fuel attempt lastError).1 = 0 := by
  intro fuel
  induction fuel with
  | zero =>
    intro attempt lastError
    simp [connectLoop, countPairAttempts]
  | succ n ih =>
    intro attempt lastError
    rw [connectLoop_succ]
    cases houtcome : outcome attempt with
    | ok => simp [countPairAttempts, List.filter_cons, isPairEv]
    | retFalse =>
      have := ih (attempt + 1) lastError
      simp only [countPairAttempts, List.filter_cons] at this ⊢
      simpa [isPairEv] using this
    | threw msg =>
      split_ifs
      · have := ih (attempt + 1) (some msg)
        simp only [countPairAttempts, List.filter_cons] at this ⊢
        simpa [isPairEv] using this
      · simp [countPairAttempts, List.filter_cons, isPairEv]

theorem connectLoop_attempts_pos (outcome : Nat → AttemptOutcome) :
    ∀ (fuel attempt : Nat) (lastError : Option String), 0 < fuel →
      1 ≤ countAttempts (connectLoop outcome fuel attempt lastError).1 := by
  intro fuel
  cases fuel with
  | zero => intro attempt lastError h; omega
  | succ n =>
    intro attempt lastError _
    rw [connectLoop_succ]
    cases houtcome : outcome attempt with
    | ok => simp [countAttempts, List.filter_cons, isAttemptEv]
    | retFalse => simp [countAttempts, List.filter_cons, isAttemptEv]
    | threw msg =>
      split_ifs <;> simp [countAttempts, List.filter_cons, isAttemptEv]

/-- Refinement of the amended claim's delay clauses by the source loop, for
every outcome assignment (mixed flows included): the loop's event trace is
exactly the claimed trace. -/
theorem connectLoop_events_eq_claimed (outcome : Nat → AttemptOutcome) :
    ∀ (fuel attempt : Nat) (lastError : Option String),
      (connectLoop outcome fuel attempt lastError).1 =
        claimedEvents outcome fuel attempt := by
  intro fuel
  induction fuel with
  | zero =>
    intro attempt lastError
    rfl
  | succ n ih =>
    intro attempt lastError
    rw [connectLoop_succ]
    cases houtcome : outcome attempt with
    | ok => simp [claimedEvents, houtcome]
    | retFalse =>
      dsimp only
      rw [ih]
      simp [claimedEvents, houtcome]
    | threw msg =>
      split_ifs with hlt
      · dsimp only
        rw [ih]
        simp [claimedEvents, houtcome, hlt]
      · simp [claimedEvents, houtcome, hlt]

/-- Counterexample to claim C1: when every `connect()` call resolves `false`
(a failed attempt that does not reject), the three attempts run back-to-back
with no 1-second delay between them, and the surfaced error is the generic
message, not a connect error. -/
theorem c1_counterexample :
    (connectToDevice true (PairOutcome.resolved true)
        fun _ => AttemptOutcome.retFalse).events =
      [ConnectEv.att 1, ConnectEv.att 2, ConnectEv.att 3] ∧
    ConnectEv.backoff ∉
      (connectToDevice true (PairOutcome.resolved true)
        fun _ => AttemptOutcome.retFalse).events ∧
    (connectToDevice true (PairOutcome.resolved true)
        fun _ => AttemptOutcome.retFalse).outcome =
      Except.error "Failed to connect to device after 3 attempts" := by
  refine ⟨rfl, by decide, rfl⟩

/-- Claim C1, amended: pairing is attempted exactly once when the device is
not bonded and pairing failure does not abort the flow (a connect attempt
still follows); at most 3 connect attempts are ever made; each attempt that
fails by rejecting — except the third — is followed by the fixed 1-second
delay before the next, while an attempt that resolves `false` moves on with
no delay (see the counterexample) — universally over all flows, the attempt
phase's event trace equals `claimedEvents`, the trace written from exactly
those delay clauses; when all 3 attempts reject, the trace is attempt, delay,
attempt, delay, attempt and the last error is surfaced, with no fourth
attempt. -/
theorem c1_connect_retry_policy :
    (∀ (bonded : Bool) (pairResult : PairOutcome)
        (outcome : Nat → AttemptOutcome),
      countAttempts (connectToDevice bonded pairResult outcome).events ≤ 3) ∧
    (∀ (pairResult : PairOutcome) (outcome : Nat → AttemptOutcome),
      countPairAttempts (connectToDevice false pairResult outcome).events = 1 ∧
      1 ≤ countAttempts (connectToDevice false pairResult outcome).events) ∧
    (∀ (outcome : Nat → AttemptOutcome) (lastError : Option String),
      (connectLoop outcome 3 1 lastError).1 = claimedEvents outcome 3 1) ∧
    (∀ (pairResult : PairOutcome) (outcome : Nat → AttemptOutcome),
      (connectToDevice true pairResult outcome).events =
        claimedEvents outcome 3 1) ∧
    (∀ (e1 e2 e3 : String) (outcome : Nat → AttemptOutcome),
      outcome 1 = AttemptOutcome.threw e1 →
      outcome 2 = AttemptOutcome.threw e2 →
      outcome 3 = AttemptOutcome.threw e3 →
      (connectToDevice true (PairOutcome.resolved true) outcome).events =
        [ConnectEv.att 1, ConnectEv.backoff, ConnectEv.att 2,
          ConnectEv.backoff, ConnectEv.att 3] ∧
      (connectToDevice true (PairOutcome.resolved true) outcome).outcome =
        Except.error e3) := by
  refine ⟨?_, ?_, ?_, ?_, ?_⟩
  · intro bonded pairResult outcome
    have hloop := connectLoop_attempts_le outcome 3 1 none
    cases bonded with
    | true =>
      simpa [connectToDevice, countAttempts_append, countAttempts,
        isAttemptEv] using hloop
    | false =>
      cases pairResult with
      | resolved b =>
        cases b <;>
          simpa [connectToDevice, countAttempts_append, countAttempts,
            isAttemptEv] using hloop
      | threw m =>
        simpa [connectToDevice, countAttempts_append, countAttempts,
          isAttemptEv] using hloop
  · intro pairResult outcome
    have hpair := connectLoop_no_pairAttempt outcome 3 1 none
    have hpos := connectLoop_attempts_pos outcome 3 1 none (by norm_num)
    constructor
    · cases pairResult with
      | resolved b =>
        cases b <;>
          simp_all [connectToDevice, countPairAttempts, List.filter_append,
            isPairEv]
      | threw m =>
        simp_all [connectToDevice, countPairAttempts, List.filter_append,
          isPairEv]
    · cases pairResult with
      | resolved b =>
        cases b <;>
          simp_all [connectToDevice, countAttempts, List.filter_append,
            isAttemptEv]
      | threw m =>
        simp_all [connectToDevice, countAttempts, List.filter_append,
          isAttemptEv]
  · intro outcome lastError
    exact connectLoop_events_eq_claimed outcome 3 1 lastError
  · intro pairResult outcome
    simp [connectToDevice, connectLoop_events_eq_claimed outcome 3 1 none]
  · intro e1 e2 e3 outcome h1 h2 h3
    have l3 : connectLoop outcome 1 3 (some e2) =
        ([ConnectEv.att 3], some e3, false) := by
      show connectLoop outcome (0 + 1) 3 (some e2) = _
      rw [connectLoop_succ, h3]
      dsimp only
      rw [if_neg (by norm_num)]
    have l2 : connectLoop outcome 2 2 (some e1) =
        ([ConnectEv.att 2, ConnectEv.backoff, ConnectEv.att 3],
          some e3, false) := by
      show connectLoop outcome (1 + 1) 2 (some e1) = _
      rw [connectLoop_succ, h2]
      dsimp only
      rw [if_pos (by norm_num), l3]
    have l1 : connectLoop outcome 3 1 none =
        ([ConnectEv.att 1, ConnectEv.backoff, ConnectEv.att 2,
          ConnectEv.backoff, ConnectEv.att 3], some e3, false) := by
      show connectLoop outcome (2 + 1) 1 none = _
      rw [connectLoop_succ, h1]
      dsimp only
      rw [if_pos (by norm_num), l2]
    constructor
    · simp [connectToDevice, l1]
    · simp [connectToDevice, l1]

/-- Witness for C1 (amended): the attempt bound at an always-succeeding
transport; exactly one pairing attempt and at least one connect attempt when
unbonded with a rejecting pairing; the claimed-trace refinement at the mixed
flow where attempt 1 rejects and attempt 2 succeeds, whose trace is attempt,
backoff, attempt; and the full backoff trace with the surfaced last error
when every attempt rejects with "boom". -/
theorem c1_connect_retry_policy_witness :
    countAttempts (connectToDevice true (PairOutcome.resolved true)
        fun _ => AttemptOutcome.ok).events ≤ 3 ∧
    (countPairAttempts (connectToDevice false (PairOutcome.threw "pairfail")
        fun _ => AttemptOutcome.ok).events = 1 ∧
      1 ≤ countAttempts (connectToDevice false (PairOutcome.threw "pairfail")
        fun _ => AttemptOutcome.ok).events) ∧
    ((connectLoop
        (fun n => if n = 1 then AttemptOutcome.threw "boom" else AttemptOutcome.ok)
        3 1 none).1 =
      claimedEvents
        (fun n => if n = 1 then AttemptOutcome.threw "boom" else AttemptOutcome.ok)
        3 1) ∧
    ((connectToDevice true (PairOutcome.resolved true)
        fun n => if n = 1 then AttemptOutcome.threw "boom" else AttemptOutcome.ok).events =
      claimedEvents
        (fun n => if n = 1 then AttemptOutcome.threw "boom" else AttemptOutcome.ok)
        3 1) ∧
    claimedEvents
        (fun n => if n = 1 then AttemptOutcome.threw "boom" else AttemptOutcome.ok)
        3 1 =
      [ConnectEv.att 1, ConnectEv.backoff, ConnectEv.att 2] ∧
    ((connectToDevice true (PairOutcome.resolved true)
        fun _ => AttemptOutcome.threw "boom").events =
      [ConnectEv.att 1, ConnectEv.backoff, ConnectEv.att 2,
        ConnectEv.backoff, ConnectEv.att 3] ∧
      (connectToDevice true (PairOutcome.resolved true)
        fun _ => AttemptOutcome.threw "boom").outcome =
        Except.error "boom") :=
  ⟨c1_connect_retry_policy.1 true (PairOutcome.resolved true)
      (fun _ => AttemptOutcome.ok),
    c1_connect_retry_policy.2.1 (PairOutcome.threw "pairfail")
      (fun _ => AttemptOutcome.ok),
    c1_connect_retry_policy.2.2.1
      (fun n => if n = 1 then AttemptOutcome.threw "boom" else AttemptOutcome.ok)
      none,
    c1_connect_retry_policy.2.2.2.1 (PairOutcome.resolved true)
      (fun n => if n = 1 then AttemptOutcome.threw "boom" else AttemptOutcome.ok),
    rfl,
    c1_connect_retry_policy.2.2.2.2 "boom" "boom" "boom"
      (fun _ => AttemptOutcome.threw "boom") rfl rfl rfl⟩

/-- Claim C5: a write failure whose message indicates the peer disconnected
clears the stored device reference, the failing command is not written again
after that failure, and every subsequent send with no stored reference
performs no write and returns silently. This holds for the Classic hook
(written exactly once) and for the BLE hook (written once with response and
once as the in-call without-response fallback, never after the fatal
failure). -/
theorem c5_disconnect_write_clears_ref :
    (∀ (device : BTDevice) (write : BTDevice → String → WriteOutcome)
        (command msg : String),
      write device command = WriteOutcome.threw msg →
      indicatesDisconnect msg = true →
      sendCommand (some device) write command = (none, [command])) ∧
    (∀ (write : BTDevice → String → WriteOutcome) (command : String),
      sendCommand none write command = (none, [])) ∧
    (∀ (device : BTDevice)
        (w1 w2 : BTDevice → String → Option String) (command m1 msg : String),
      w1 device command = some m1 → w2 device command = some msg →
      indicatesDisconnected msg = true →
      sendCommandBle (some device) w1 w2 command = (none, [command, command])) ∧
    (∀ (w1 w2 : BTDevice → String → Option String) (command : String),
      sendCommandBle none w1 w2 command = (none, [])) := by
  refine ⟨?_, fun write command => rfl, ?_, fun w1 w2 command => rfl⟩
  · intro device write command msg hw hd
    simp [sendCommand, hw, hd]
  · intro device w1 w2 command m1 msg hw1 hw2 hd
    simp [sendCommandBle, hw1, hw2, hd]

/-- Witness for C5: a write that rejects with "Device is disconnected" clears
the reference after writing the failing command once, and a following send
finds no device and writes nothing; same shape for the BLE hook with its
fallback write. -/
theorem c5_disconnect_write_clears_ref_witness :
    ((fun (_ : BTDevice) (_ : String) =>
        WriteOutcome.threw "Device is disconnected") ⟨"hc05"⟩ "F" =
      WriteOutcome.threw "Device is disconnected" ∧
      indicatesDisconnect "Device is disconnected" = true ∧
      sendCommand (some ⟨"hc05"⟩)
        (fun _ _ => WriteOutcome.threw "Device is disconnected") "F" =
        (none, ["F"])) ∧
    sendCommand none
      (fun _ _ => WriteOutcome.threw "Device is disconnected") "S" =
      (none, []) ∧
    ((fun (_ : BTDevice) (_ : String) =>
        some "Device disconnected") ⟨"esp32"⟩ "F" = some "Device disconnected" ∧
      indicatesDisconnected "Device disconnected" = true ∧
      sendCommandBle (some ⟨"esp32"⟩) (fun _ _ => some "Device disconnected")
        (fun _ _ => some "Device disconnected") "F" = (none, ["F", "F"])) ∧
    sendCommandBle none (fun _ _ => some "Device disconnected")
      (fun _ _ => some "Device disconnected") "S" = (none, []) :=
  ⟨⟨rfl, by decide,
      c5_disconnect_write_clears_ref.1 ⟨"hc05"⟩
        (fun _ _ => WriteOutcome.threw "Device is disconnected") "F"
        "Device is disconnected" rfl (by decide)⟩,
    c5_disconnect_write_clears_ref.2.1
      (fun _ _ => WriteOutcome.threw "Device is disconnected") "S",
    ⟨rfl, by decide,
      c5_disconnect_write_clears_ref.2.2.1 ⟨"esp32"⟩
        (fun _ _ => some "Device disconnected")
        (fun _ _ => some "Device disconnected") "F"
        "Device disconnected" "Device disconnected" rfl rfl (by decide)⟩,
    c5_disconnect_write_clears_ref.2.2.2
      (fun _ _ => some "Device disconnected")
      (fun _ _ => some "Device disconnected") "S"⟩

/-- Counterexample to claim C6: when the underlying close call throws, the
stored device reference is NOT cleared before returning — it still holds the
device. -/
theorem c6_counterexample :
    (disconnectDevice (some ⟨"hc05"⟩)
        fun _ => CloseOutcome.threw "close failed").deviceRef =
      some ⟨"hc05"⟩ ∧
    ¬ (disconnectDevice (some ⟨"hc05"⟩)
        fun _ => CloseOutcome.threw "close failed").deviceRef = none := by
  exact ⟨rfl, by decide⟩

/-- Claim C6, amended: `disconnectDevice` is safe to call with no stored
device (it does nothing) and is idempotent on the stored reference; close
errors are only logged, never escalated; the reference is cleared when the
close succeeds, but when the close throws the reference is NOT cleared (see
the counterexample). -/
theorem c6_disconnect_behavior :
    (∀ close : BTDevice → CloseOutcome,
      disconnectDevice none close =
        { deviceRef := none, closeCalls := [], errorEscalated := false }) ∧
    (∀ (device : BTDevice) (close : BTDevice → CloseOutcome),
      close device = CloseOutcome.ok →
      disconnectDevice (some device) close =
        { deviceRef := none, closeCalls := [device],
          errorEscalated := false }) ∧
    (∀ (device : BTDevice) (close : BTDevice → CloseOutcome) (msg : String),
      close device = CloseOutcome.threw msg →
      disconnectDevice (some device) close =
        { deviceRef := some device, closeCalls := [device],
          errorEscalated := false }) ∧
    (∀ (deviceRef : Option BTDevice) (close : BTDevice → CloseOutcome),
      (disconnectDevice (disconnectDevice deviceRef close).deviceRef
          close).deviceRef =
        (disconnectDevice deviceRef close).deviceRef) ∧
    (∀ (deviceRef : Option BTDevice) (close : BTDevice → CloseOutcome),
      (disconnectDevice deviceRef close).errorEscalated = false) := by
  refine ⟨fun close => rfl, ?_, ?_, ?_, ?_⟩
  · intro device close hc
    simp [disconnectDevice, hc]
  · intro device close msg hc
    simp [disconnectDevice, hc]
  · intro deviceRef close
    cases deviceRef with
    | none => rfl
    | some device =>
      cases hc : close device with
      | ok => simp [disconnectDevice, hc]
      | threw msg => simp [disconnectDevice, hc]
  · intro deviceRef close
    cases deviceRef with
    | none => rfl
    | some device =>
      cases hc : close device with
      | ok => simp [disconnectDevice, hc]
      | threw msg => simp [disconnectDevice, hc]

/-- Witness for C6 (amended) with a succeeding close and a throwing close at
the concrete device "hc05". -/
theorem c6_disconnect_behavior_witness :
    disconnectDevice none (fun _ => CloseOutcome.ok) =
      { deviceRef := none, closeCalls := [], errorEscalated := false } ∧
    ((fun (_ : BTDevice) => CloseOutcome.ok) ⟨"hc05"⟩ = CloseOutcome.ok ∧
      disconnectDevice (some ⟨"hc05"⟩) (fun _ => CloseOutcome.ok) =
        { deviceRef := none, closeCalls := [⟨"hc05"⟩],
          errorEscalated := false }) ∧
    ((fun (_ : BTDevice) => CloseOutcome.threw "busy") ⟨"hc05"⟩ =
        CloseOutcome.threw "busy" ∧
      disconnectDevice (some ⟨"hc05"⟩) (fun _ => CloseOutcome.threw "busy") =
        { deviceRef := some ⟨"hc05"⟩, closeCalls := [⟨"hc05"⟩],
          errorEscalated := false }) ∧
    (disconnectDevice
        (disconnectDevice (some ⟨"hc05"⟩) fun _ => CloseOutcome.ok).deviceRef
        fun _ => CloseOutcome.ok).deviceRef =
      (disconnectDevice (some ⟨"hc05"⟩)
        fun _ => CloseOutcome.ok).deviceRef :=
  ⟨c6_disconnect_behavior.1 (fun _ => CloseOutcome.ok),
    ⟨rfl, c6_disconnect_behavior.2.1 ⟨"hc05"⟩ (fun _ => CloseOutcome.ok) rfl⟩,
    ⟨rfl, c6_disconnect_behavior.2.2.1 ⟨"hc05"⟩
        (fun _ => CloseOutcome.threw "busy") "busy" rfl⟩,
    c6_disconnect_behavior.2.2.2.1 (some ⟨"hc05"⟩) (fun _ => CloseOutcome.ok)⟩

/-- Counterexample to claim C7: pushing 10 same-category (joystick) commands
onto the initially empty queue yields a queue of length 10 with the oldest
command (timestamp 0) still at the head — nothing is ever replaced and no
fixed small capacity exists. -/
theorem c7_counterexample :
    (pushMany 10).length = 10 ∧
    (pushMany 10).head?.map (fun c => c.timestamp) = some 0 := by
  constructor <;> rfl

/-- Claim C7, amended: the command queue is an unbounded FIFO — enqueuing
never raises, blocks, or replaces anything: while connected it appends the
new command (speeds clamped to [-100, 100]) at the tail, preserving every
pending command; when not connected it is a no-op; the drain tick removes
exactly the head command. -/
theorem c7_queue_unbounded_fifo :
    (∀ (q : List MotorCommand) (l r : ℚ) (g : String) (ts : Nat),
      sendMotorCommand true q l r g ts =
        q ++ [MotorCommand.mk "joystick" (max (-100) (min 100 l))
          (max (-100) (min 100 r)) g false ts]) ∧
    (∀ (q : List MotorCommand) (l r : ℚ) (g : String) (ts : Nat),
      sendMotorCommand false q l r g ts = q) ∧
    (∀ l : ℚ, -100 ≤ max (-100) (min 100 l) ∧ max (-100) (min 100 l) ≤ 100) ∧
    (∀ (c : MotorCommand) (rest : List MotorCommand),
      queueTick (c :: rest) = (rest, some c)) ∧
    queueTick [] = ([], none) := by
  refine ⟨fun q l r g ts => rfl, fun q l r g ts => rfl, ?_,
    fun c rest => rfl, rfl⟩
  intro l
  refine ⟨le_max_left _ _, max_le (by norm_num) ?_⟩
  exact min_le_left _ _
